import Mathlib

/-!
Verification of the request-processing pipeline of a Cloudflare-Workers
task-management API.  Each section embeds one part of the source code as
executable Lean definitions and proves the specified properties about
them: the WAF threat filter, the KV rate limiter, bearer-token
authentication, the cache-aside task service, the repository update
rules, pagination parsing, the login flow and the error boundary.
-/

namespace TaskManager

/-! ## Character-level string utilities

The WAF in `middleware/security.ts` tests the decoded path plus query
string against three case-insensitive regular expressions.  We embed the
regexes as executable scanners over lowercased character lists; the
scanners follow the JavaScript semantics of each pattern alternative.
-/

/-- JS `\w`: ASCII letters, digits and underscore. -/
def isWordChar (c : Char) : Bool :=
  c.isAlpha || c.isDigit || c == '_'

/-- JS `\s` (the forms that can occur in a URL/header string). -/
def isJsSpace (c : Char) : Bool :=
  c == ' ' || c == '\t' || c == '\n' || c == '\r' || c == '\x0b' ||
  c == '\x0c' || c == '\u00A0'

/-- JS line terminators, which `.` does not match. -/
def isLineTerm (c : Char) : Bool :=
  c == '\n' || c == '\r' || c == '\u2028' || c == '\u2029'

/-- `leadsList pat l` : `pat` is an initial segment of `l`. -/
def leadsList : List Char → List Char → Bool
  | [], _ => true
  | _ :: _, [] => false
  | p :: ps, c :: cs => p == c && leadsList ps cs

/-- `hasSub pat l` : `pat` occurs contiguously somewhere in `l`. -/
def hasSub (pat : List Char) : List Char → Bool
  | [] => leadsList pat []
  | c :: cs => leadsList pat (c :: cs) || hasSub pat cs

/-- Lowercase the characters of a string (the regexes carry the `i` flag;
all pattern letters are ASCII). -/
def lowerChars (s : String) : List Char :=
  s.data.map Char.toLower

/-- Head of the list is `ch`. -/
def headIs (ch : Char) : List Char → Bool
  | [] => false
  | c :: _ => c == ch

/-- A word boundary to the left of the current position: the previous
character (if any) is not a word character. -/
def boundaryBefore : Option Char → Bool
  | none => true
  | some c => !isWordChar c

/-- A word boundary to the right: the list is exhausted or starts with a
non-word character. -/
def nonWordHead : List Char → Bool
  | [] => true
  | c :: _ => !isWordChar c

/-! ### SQL-injection pattern
`/(\bunion\b.*\bselect\b|'\s*(or|and)\s*'|--\s|\/\*|\*\/|;\s*drop|;\s*delete|;\s*insert|xp_|exec\s*\()/i`
-/

/-- Scan for a word-bounded `select` reachable without crossing a line
terminator (the `.*` gap of the first alternative). `prev` is the
character just before the current position. -/
def selScan (prev : Option Char) : List Char → Bool
  | [] => false
  | c :: cs =>
      (boundaryBefore prev && leadsList "select".data (c :: cs) &&
        nonWordHead ((c :: cs).drop 6)) ||
      (!isLineTerm c && selScan (some c) cs)

/-- Scan for `\bunion\b.*\bselect\b`. -/
def unionSelectScan (prev : Option Char) : List Char → Bool
  | [] => false
  | c :: cs =>
      (boundaryBefore prev && leadsList "union".data (c :: cs) &&
        nonWordHead ((c :: cs).drop 5) && selScan (some 'n') ((c :: cs).drop 5)) ||
      unionSelectScan (some c) cs

/-- After an opening quote: `\s*(or|and)\s*'`. -/
def quoteOrAndAfter (l : List Char) : Bool :=
  let r := l.dropWhile isJsSpace
  (leadsList "or".data r && headIs '\'' ((r.drop 2).dropWhile isJsSpace)) ||
  (leadsList "and".data r && headIs '\'' ((r.drop 3).dropWhile isJsSpace))

/-- Scan for `'\s*(or|and)\s*'`. -/
def quoteOrAndScan : List Char → Bool
  | [] => false
  | c :: cs => (c == '\'' && quoteOrAndAfter cs) || quoteOrAndScan cs

/-- Scan for `--\s`. -/
def dashDashScan : List Char → Bool
  | c :: d :: e :: rest =>
      (c == '-' && d == '-' && isJsSpace e) || dashDashScan (d :: e :: rest)
  | _ => false

/-- Scan for `;\s*drop`, `;\s*delete` or `;\s*insert`. -/
def semiKeywordScan : List Char → Bool
  | [] => false
  | c :: cs =>
      (c == ';' &&
        (let r := cs.dropWhile isJsSpace
         leadsList "drop".data r || leadsList "delete".data r ||
         leadsList "insert".data r)) ||
      semiKeywordScan cs

/-- Scan for `exec\s*\(`. -/
def execParenScan : List Char → Bool
  | [] => false
  | c :: cs =>
      (c == 'e' && leadsList "xec".data cs &&
        headIs '(' ((cs.drop 3).dropWhile isJsSpace)) ||
      execParenScan cs

/-- `SQL_INJECTION_PATTERN` from `middleware/security.ts` (input already
lowercased). -/
def sqlInjectionMatch (l : List Char) : Bool :=
  unionSelectScan none l || quoteOrAndScan l || dashDashScan l ||
  hasSub "/*".data l || hasSub "*/".data l || semiKeywordScan l ||
  hasSub "xp_".data l || execParenScan l

/-! ### XSS pattern
`/(<script|javascript:|on\w+\s*=|<\s*img[^>]*onerror|<iframe|<object|<embed)/i`
-/

/-- After the literal `on`: `\w+\s*=`. -/
def onAttrAfter (l : List Char) : Bool :=
  !(l.takeWhile isWordChar).isEmpty &&
    headIs '=' ((l.dropWhile isWordChar).dropWhile isJsSpace)

/-- Scan for `on\w+\s*=`. -/
def onAttrScan : List Char → Bool
  | [] => false
  | c :: cs => (c == 'o' && leadsList "n".data cs && onAttrAfter (cs.drop 1)) ||
      onAttrScan cs

/-- `[^>]*` followed by `pat`: `pat` occurs before any `>` is crossed. -/
def noGtThen (pat : List Char) : List Char → Bool
  | [] => leadsList pat []
  | c :: cs => leadsList pat (c :: cs) || (c != '>' && noGtThen pat cs)

/-- Scan for `<\s*img[^>]*onerror`. -/
def imgOnerrorScan : List Char → Bool
  | [] => false
  | c :: cs =>
      (c == '<' &&
        (let r := cs.dropWhile isJsSpace
         leadsList "img".data r && noGtThen "onerror".data (r.drop 3))) ||
      imgOnerrorScan cs

/-- `XSS_PATTERN` from `middleware/security.ts` (input already lowercased). -/
def xssMatch (l : List Char) : Bool :=
  hasSub "<script".data l || hasSub "javascript:".data l || onAttrScan l ||
  imgOnerrorScan l || hasSub "<iframe".data l || hasSub "<object".data l ||
  hasSub "<embed".data l

/-! ### Path-traversal pattern
`/(\.\.(\/|\\)|%2e%2e%2f|%2e%2e\/|\.\.%2f)/i`
-/

/-- `PATH_TRAVERSAL` from `middleware/security.ts` (input already
lowercased, so the `%2E` variants are covered). -/
def traversalMatch (l : List Char) : Bool :=
  hasSub "../".data l || hasSub "..\\".data l || hasSub "%2e%2e%2f".data l ||
  hasSub "%2e%2e/".data l || hasSub "..%2f".data l

/-! ## WAF outcome: `detectMaliciousInput` -/

/-- One `console.warn` record emitted by the WAF. The XSS branch of the
source logs no `ip` field, hence the `Option`. -/
structure WafLog where
  reason : String
  path : String
  ip : Option String
  deriving DecidableEq

/-- The error payload of the JSON envelope `{code, message}`. -/
structure ErrorBody where
  code : String
  message : String
  deriving DecidableEq

inductive WafOutcome where
  /-- A response is returned immediately: HTTP status, body, warnings logged. -/
  | blocked (status : Nat) (body : ErrorBody) (logs : List WafLog)
  /-- `null` was returned: the chain continues. -/
  | passed
  deriving DecidableEq

def forbiddenBody : ErrorBody := ⟨"FORBIDDEN", "Forbidden"⟩

/-- `detectMaliciousInput` from `middleware/security.ts`.  `pathname` and
`search` are the decoded `url.pathname` and `url.search`; `ip` is the
already-defaulted `CF-Connecting-IP` value. -/
def detectMaliciousInput (pathname search ip : String) : WafOutcome :=
  let toCheck := lowerChars (pathname ++ search)
  if sqlInjectionMatch toCheck then
    .blocked 403 forbiddenBody [⟨"sql_injection", pathname, some ip⟩]
  else if xssMatch toCheck then
    .blocked 403 forbiddenBody [⟨"xss", pathname, none⟩]
  else if traversalMatch toCheck then
    .blocked 403 forbiddenBody []
  else
    .passed

/-! ## Response envelope (`utils/response.ts`)

Every error helper builds `{success:false, error:{code,message}}` with a
fixed status; `tooManyRequests` additionally sets a `Retry-After` header.
-/

structure HttpErrorResponse where
  status : Nat
  code : String
  message : String
  retryAfter : Option Nat
  deriving DecidableEq

def badRequestResp (message code : String) : HttpErrorResponse :=
  ⟨400, code, message, none⟩

def unauthorizedResp (message : String) : HttpErrorResponse :=
  ⟨401, "UNAUTHORIZED", message, none⟩

def forbiddenResp (message : String) : HttpErrorResponse :=
  ⟨403, "FORBIDDEN", message, none⟩

def notFoundResp (message : String) : HttpErrorResponse :=
  ⟨404, "NOT_FOUND", message, none⟩

def conflictResp (message : String) : HttpErrorResponse :=
  ⟨409, "CONFLICT", message, none⟩

def tooManyRequestsResp (retryAfter : Nat) : HttpErrorResponse :=
  ⟨429, "RATE_LIMITED", "Too many requests. Please slow down.", some retryAfter⟩

def internalErrorResp (message : String) : HttpErrorResponse :=
  ⟨500, "INTERNAL_ERROR", message, none⟩

/-! ## `AppError` and the error boundary (`middleware/error-handler.ts`) -/

/-- `AppError`: a typed domain error with HTTP status and machine code. -/
structure AppError where
  statusCode : Nat
  code : String
  message : String
  deriving DecidableEq

namespace AppError

def badRequest (m : String) : AppError := ⟨400, "BAD_REQUEST", m⟩

def unauthorized (m : String) : AppError := ⟨401, "UNAUTHORIZED", m⟩

def forbidden (m : String) : AppError := ⟨403, "FORBIDDEN", m⟩

def notFound (m : String) : AppError := ⟨404, "NOT_FOUND", m⟩

def conflict (m : String) : AppError := ⟨409, "CONFLICT", m⟩

def internal (m : String) : AppError := ⟨500, "INTERNAL_ERROR", m⟩

end AppError

/-- A value thrown inside the pipeline: an `AppError`, a legacy
`{status, message}` object, or anything else (carrying whatever internal
detail it has). -/
inductive Thrown where
  | app (e : AppError)
  | legacy (status : Nat) (message : String)
  | other (detail : String)
  deriving DecidableEq

/-- The `AppError` arm of `withErrorHandling`'s catch block. -/
def mapAppError (e : AppError) : HttpErrorResponse :=
  match e.statusCode with
  | 400 => badRequestResp e.message e.code
  | 401 => unauthorizedResp e.message
  | 403 => forbiddenResp e.message
  | 404 => notFoundResp e.message
  | 409 => conflictResp e.message
  | _ => internalErrorResp e.message

/-- The legacy `{status, message}` arm of the catch block (the `badRequest`
call there uses the default code). -/
def mapLegacy (status : Nat) (message : String) : HttpErrorResponse :=
  match status with
  | 400 => badRequestResp message "BAD_REQUEST"
  | 401 => unauthorizedResp message
  | 403 => forbiddenResp message
  | 404 => notFoundResp message
  | 409 => conflictResp message
  | _ => internalErrorResp message

/-- `withErrorHandling` from `middleware/error-handler.ts`: the handler
either produced a response or threw; every throw is converted to an
error response, unanticipated values to `internalError()`. -/
def withErrorHandling {R : Type} (handler : Except Thrown R) :
    Sum R HttpErrorResponse :=
  match handler with
  | .ok r => .inl r
  | .error (.app e) => .inr (mapAppError e)
  | .error (.legacy s m) => .inr (mapLegacy s m)
  | .error (.other _) => .inr (internalErrorResp "Internal server error")

/-! ## JS integer parsing (`parseInt(value, 10)`) -/

/-- Value of the leading ASCII digit run; `none` when there is no digit
(`parseInt` would give `NaN`). -/
def leadingNat (l : List Char) : Option Nat :=
  let ds := l.takeWhile Char.isDigit
  if ds.isEmpty then none
  else some (ds.foldl (fun a c => a * 10 + (c.toNat - '0'.toNat)) 0)

/-- `parseInt(s, 10)`: skip leading whitespace, optional sign, leading
digits; `none` models `NaN`. -/
def jsParseInt (s : String) : Option Int :=
  match s.data.dropWhile isJsSpace with
  | '+' :: rest => (leadingNat rest).map (fun n => (n : Int))
  | '-' :: rest => (leadingNat rest).map (fun n => -(n : Int))
  | rest => (leadingNat rest).map (fun n => (n : Int))

/-! ## Rate limiter (`checkRateLimit` in `middleware/security.ts`) -/

def RATE_LIMIT_MAX : Nat := 60

def RATE_LIMIT_WINDOW : Nat := 60

/-- The effect of one `checkRateLimit` call: an optional 429 response and
an optional KV write `(value, expirationTtl)`. -/
structure RateLimitDecision where
  response : Option HttpErrorResponse
  write : Option (String × Nat)
  deriving DecidableEq

/-- `checkRateLimit` for one client key. `current` is the KV read result
(`null` when absent); the stored value is a decimal string.  A stored
non-numeric value parses to `NaN`: `NaN >= 60` is false and
`String(NaN + 1)` is `"NaN"`, which the `none` arm mirrors. -/
def checkRateLimit (current : Option String) : RateLimitDecision :=
  let count : Option Int :=
    match current with
    | none => some 0
    | some s => jsParseInt s
  match count with
  | some n =>
      if (RATE_LIMIT_MAX : Int) ≤ n then
        ⟨some (tooManyRequestsResp RATE_LIMIT_WINDOW), none⟩
      else
        ⟨none, some (toString (n + 1), RATE_LIMIT_WINDOW)⟩
  | none => ⟨none, some ("NaN", RATE_LIMIT_WINDOW)⟩

/-- Counter value after a request: the written value if the call wrote,
otherwise the old one. -/
def rateStep (s : Option String) : Option String :=
  match (checkRateLimit s).write with
  | some (v, _) => some v
  | none => s

/-- Counter value after `n` requests from one address inside one TTL
window, starting from an absent counter. -/
def rateStateAfter : Nat → Option String
  | 0 => none
  | n + 1 => rateStep (rateStateAfter n)

/-! ## Authentication middleware (`middleware/auth.middleware.ts`) -/

/-- A dynamically-typed JSON field of the decoded token payload. -/
inductive JsonVal where
  | num (n : Int)
  | str (s : String)
  | other
  deriving DecidableEq

/-- The decoded payload as `jose` returns it: every field optional and
untyped until re-validated. -/
structure TokenPayload where
  userId : Option JsonVal
  email : Option JsonVal
  name : Option JsonVal
  deriving DecidableEq

/-- Outcome of `verifyToken`: the decoded payload, or a thrown error
carrying a message (signature failure, expiry, structural invalidity). -/
inductive VerifyOutcome where
  | valid (p : TokenPayload)
  | errorMsg (m : String)
  deriving DecidableEq

/-- The typed identity context passed to every protected handler. -/
structure AuthContext where
  userId : Int
  email : String
  name : String
  deriving DecidableEq

/-- JS `s.startsWith(pat)`. -/
def strStartsWith (s pat : String) : Bool :=
  leadsList pat.data s.data

/-- JS `s.slice(n)` for ASCII counts. -/
def strDrop (s : String) (n : Nat) : String :=
  ⟨s.data.drop n⟩

/-- JS `s.trim()`. -/
def strTrim (s : String) : String :=
  ⟨((s.data.dropWhile isJsSpace).reverse.dropWhile isJsSpace).reverse⟩

/-- The token extracted from a bearer header: everything after the
7-character `Bearer ` scheme, trimmed. -/
def bearerToken (h : String) : String :=
  strTrim (strDrop h 7)

/-- `requireAuth`: checks the `Authorization` header, verifies the token
via `verify`, re-validates the payload field types.  Failures are 401
responses built by `unauthorized(...)`. -/
def requireAuth (authHeader : Option String)
    (verify : String → VerifyOutcome) : Except HttpErrorResponse AuthContext :=
  match authHeader with
  | none => .error (unauthorizedResp "Authorization header is required")
  | some h =>
    if !strStartsWith h "Bearer " then
      .error (unauthorizedResp "Authorization header must use Bearer scheme")
    else
      let token := bearerToken h
      if token = "" then
        .error (unauthorizedResp "Bearer token is empty")
      else
        match verify token with
        | .errorMsg m =>
            .error (unauthorizedResp
              (if hasSub "expired".data m.data then "Token has expired"
               else "Invalid token"))
        | .valid p =>
            match p.userId, p.email, p.name with
            | some (.num uid), some (.str em), some (.str nm) =>
                .ok ⟨uid, em, nm⟩
            | _, _, _ =>
                .error (unauthorizedResp "Token payload is malformed")

/-! ## Login flow (`services/auth.service.ts` with `utils/jwt.ts`) -/

/-- A `users` row as the repository returns it. -/
structure User where
  id : Nat
  email : String
  name : String
  password : String
  created_at : String
  updated_at : String
  deriving DecidableEq

/-- `UserPublic`: the row without the password hash. -/
structure UserPublic where
  id : Nat
  email : String
  name : String
  created_at : String
  updated_at : String
  deriving DecidableEq

def toPublic (u : User) : UserPublic :=
  ⟨u.id, u.email, u.name, u.created_at, u.updated_at⟩

structure LoginInput where
  email : String
  password : String
  deriving DecidableEq

structure AuthResult where
  token : String
  user : UserPublic
  deriving DecidableEq

/-- The precomputed dummy hash compared against when no account matches. -/
def DUMMY_HASH : String :=
  "0000000000000000000000000000000000000000:0000000000000000000000000000000000000000000000000000000000000000"

/-- Observable trace of one `loginUser` call: which stored hash the
(always executed) `verifyPassword` ran against, and the outcome. -/
structure LoginTrace where
  hashChecked : String
  outcome : Except AppError AuthResult

/-- `loginUser`:  look the account up, always run password verification
(against `DUMMY_HASH` on a miss), and fail with one uniform 401 error
when the account is absent or the password wrong. -/
def loginUser (findByEmail : String → Option User)
    (verifyPassword : String → String → Bool)
    (issueToken : User → String) (input : LoginInput) : LoginTrace :=
  let user := findByEmail input.email
  let storedHash := (user.map User.password).getD DUMMY_HASH
  let isValid := verifyPassword input.password storedHash
  match user with
  | none =>
      ⟨storedHash, .error (AppError.unauthorized "Invalid email or password")⟩
  | some u =>
      if isValid then
        ⟨storedHash, .ok ⟨issueToken u, toPublic u⟩⟩
      else
        ⟨storedHash, .error (AppError.unauthorized "Invalid email or password")⟩

/-! ## Pagination parsing (`parsePositiveInt` in `utils/validation.ts`) -/

/-- `parsePositiveInt(value, defaultValue, max?)`: falsy input, `NaN` and
values below 1 fall back to the default; values over the cap clamp. -/
def parsePositiveInt (value : Option String) (defaultValue : Int)
    (maxVal : Option Int) : Int :=
  match value with
  | none => defaultValue
  | some s =>
    if s = "" then defaultValue
    else
      match jsParseInt s with
      | none => defaultValue
      | some n =>
        if n < 1 then defaultValue
        else
          match maxVal with
          | some m => if m < n then m else n
          | none => n

/-! ## Task domain (`types/task.types.ts`, `repositories/task.repository.ts`) -/

inductive TaskStatus where
  | todo
  | in_progress
  | done
  | cancelled
  deriving DecidableEq

inductive TaskPriority where
  | low
  | medium
  | high
  | critical
  deriving DecidableEq

/-- A `tasks` row (AI fields included; resolved tags are attached by the
repository but play no role in the cache/lifecycle claims and are kept
out of the row as in the DB schema). -/
structure Task where
  id : Nat
  user_id : Nat
  title : String
  description : Option String
  status : TaskStatus
  priority : TaskPriority
  due_date : Option String
  completed_at : Option String
  ai_summary : Option String
  ai_sentiment : Option String
  created_at : String
  updated_at : String
  deriving DecidableEq

structure CreateTaskInput where
  title : String
  description : Option String
  status : Option TaskStatus
  priority : Option TaskPriority
  due_date : Option String
  tag_ids : Option (List Nat)
  deriving DecidableEq

/-- `UpdateTaskInput`.  The repository distinguishes a key being present
from its value (`"description" in input` vs `input.description ?? null`),
so nullable patch fields are `Option (Option _)`: the outer layer is key
presence, the inner one the value-or-null. -/
structure UpdateTaskInput where
  title : Option String
  description : Option (Option String)
  status : Option TaskStatus
  priority : Option TaskPriority
  due_date : Option (Option String)
  tag_ids : Option (List Nat)
  deriving DecidableEq

/-- Does the patch carry any column change (the repository only runs the
UPDATE—and hence touches `updated_at`—when some SET clause was added)? -/
def hasColumnChange (input : UpdateTaskInput) : Bool :=
  input.title.isSome || input.description.isSome || input.status.isSome ||
  input.priority.isSome || input.due_date.isSome

/-- The SET-clause semantics of `update` in `task.repository.ts` applied
to the existing row; `now` stands for `datetime('now')`. -/
def applyUpdate (existing : Task) (input : UpdateTaskInput) (now : String) :
    Task :=
  { existing with
    updated_at := if hasColumnChange input then now else existing.updated_at
    title := input.title.getD existing.title
    description :=
      match input.description with
      | some v => v
      | none => existing.description
    status := input.status.getD existing.status
    completed_at :=
      match input.status with
      | some s =>
          if s = .done && existing.status ≠ .done then some now
          else if s ≠ .done && existing.status = .done then none
          else existing.completed_at
      | none => existing.completed_at
    priority := input.priority.getD existing.priority
    due_date :=
      match input.due_date with
      | some v => v
      | none => existing.due_date }

/-- The row inserted by `create` in `task.repository.ts` (defaults
`todo` / `medium`, AI fields null, `newId` standing for
`last_insert_rowid()`). -/
def createdRow (userId newId : Nat) (input : CreateTaskInput) (now : String) :
    Task :=
  { id := newId
    user_id := userId
    title := input.title
    description := input.description
    status := input.status.getD .todo
    priority := input.priority.getD .medium
    due_date := input.due_date
    completed_at := none
    ai_summary := none
    ai_sentiment := none
    created_at := now
    updated_at := now }

/-- The store of record: `(taskId, userId) → row`, every query
user-scoped as in the repository. -/
def Db : Type := Nat → Nat → Option Task

def dbPut (db : Db) (id userId : Nat) (t : Task) : Db :=
  fun i u => if i = id ∧ u = userId then some t else db i u

def dbDelete (db : Db) (id userId : Nat) : Db :=
  fun i u => if i = id ∧ u = userId then none else db i u

/-! ## Cache-aside task service (`services/task.service.ts`)

The KV namespace holds the two per-user key families
`tasks:{userId}` (list snapshots) and `task:{userId}:{taskId}` (item
snapshots); the key scheme is injective, so the namespace is modelled as
the two disjoint maps.  Serialization is the identity (snapshots round-trip
through `JSON`).
-/

/-- `findAll`'s result shape (the snapshot stored under the list key). -/
structure FindAllResult where
  tasks : List Task
  total : Nat
  page : Int
  limit : Int
  deriving DecidableEq

structure KvCache where
  listSnap : Nat → Option FindAllResult
  itemSnap : Nat → Nat → Option Task

def putList (c : KvCache) (userId : Nat) (v : FindAllResult) : KvCache :=
  { c with listSnap := fun u => if u = userId then some v else c.listSnap u }

def delList (c : KvCache) (userId : Nat) : KvCache :=
  { c with listSnap := fun u => if u = userId then none else c.listSnap u }

def putItem (c : KvCache) (userId taskId : Nat) (t : Task) : KvCache :=
  { c with itemSnap := fun u i =>
      if u = userId ∧ i = taskId then some t else c.itemSnap u i }

def delItem (c : KvCache) (userId taskId : Nat) : KvCache :=
  { c with itemSnap := fun u i =>
      if u = userId ∧ i = taskId then none else c.itemSnap u i }

/-- `invalidateUserCache`: always delete the list key; delete the item
key too when a task id is given. -/
def invalidateUserCache (c : KvCache) (userId : Nat) (taskId : Option Nat) :
    KvCache :=
  match taskId with
  | none => delList c userId
  | some id => delItem (delList c userId) userId id

structure TaskQueryParams where
  status : Option TaskStatus
  priority : Option TaskPriority
  due_before : Option String
  search : Option String
  page : Option Int
  limit : Option Int
  deriving DecidableEq

/-- Observable trace of one `getAllTasks` call. -/
structure GetAllTrace where
  result : FindAllResult
  cacheAfter : KvCache
  readListKey : Bool
  wroteListKey : Bool

/-- `getAllTasks`: the cache is consulted only when no filter is present
and the page is 1 (`isSimple && page === 1`); `dbFind` stands for
`taskRepo.findAll db userId`. -/
def getAllTasks (dbFind : TaskQueryParams → FindAllResult) (c : KvCache)
    (userId : Nat) (params : TaskQueryParams) : GetAllTrace :=
  let isSimple := params.status.isNone && params.priority.isNone &&
    params.search.isNone && params.due_before.isNone
  let page := params.page.getD 1
  if isSimple && page == 1 then
    match c.listSnap userId with
    | some cached => ⟨cached, c, true, false⟩
    | none =>
        let result := dbFind params
        ⟨result, putList c userId result, true, true⟩
  else
    ⟨dbFind params, c, false, false⟩

/-- `getTaskById`: item-cache hit returns the snapshot; a miss queries the
store, 404s on absence, and populates the item key. -/
def getTaskById (db : Db) (c : KvCache) (id userId : Nat) :
    Except AppError (Task × KvCache) :=
  match c.itemSnap userId id with
  | some cached => .ok (cached, c)
  | none =>
      match db id userId with
      | none => .error (AppError.notFound s!"Task {id} not found")
      | some t => .ok (t, putItem c userId id t)

/-- `updateTask`: repository update, 404 when the row is absent or not
owned, then synchronous invalidation of the list and item keys. -/
def updateTask (db : Db) (c : KvCache) (id userId : Nat)
    (input : UpdateTaskInput) (now : String) :
    Except AppError (Task × Db × KvCache) :=
  match db id userId with
  | none => .error (AppError.notFound s!"Task {id} not found")
  | some existing =>
      let updated := applyUpdate existing input now
      .ok (updated, dbPut db id userId updated,
        invalidateUserCache c userId (some id))

/-- `deleteTask`: repository delete, 404 when nothing was deleted, then
synchronous invalidation of the list and item keys. -/
def deleteTask (db : Db) (c : KvCache) (id userId : Nat) :
    Except AppError (Db × KvCache) :=
  match db id userId with
  | none => .error (AppError.notFound s!"Task {id} not found")
  | some _ =>
      .ok (dbDelete db id userId, invalidateUserCache c userId (some id))

/-! ## The create path and background enrichment (C1)

`createTask` in `services/task.service.ts` requires an
`ExecutionContext` and calls `ctx.waitUntil(enrichWithAI(...))`.  The
entry point `fetch` in `index.ts` receives the context as `_ctx` but
calls `router(request, env)` without it, and the router in
`routes/index.ts` calls `handleCreateTask(request, env, auth)` with
three arguments although the controller declares four — so at run time
`ctx` is `undefined` and `ctx.waitUntil` throws a `TypeError`.  The
model threads the context as an `Option`: `none` is `undefined`.
-/

/-- A background job handed to `ctx.waitUntil`. -/
structure EnrichJob where
  userId : Nat
  taskId : Nat
  title : String
  description : Option String
  deriving DecidableEq

/-- The state after a create-path run: store, cache, and the jobs the
execution environment promised to keep alive. -/
structure CreateResult where
  task : Task
  db : Db
  cache : KvCache
  waited : List EnrichJob

/-- `createTask`: insert, invalidate the user's list key, then hand the
enrichment promise to `ctx.waitUntil`.  With `ctx = none` (the
`undefined` of the miswired router) the member access throws. -/
def createTask (ctx : Option Unit) (db : Db) (c : KvCache)
    (userId newId : Nat) (input : CreateTaskInput) (now : String) :
    Except Thrown CreateResult :=
  let task := createdRow userId newId input now
  let db' := dbPut db newId userId task
  let c' := invalidateUserCache c userId none
  match ctx with
  | none =>
      .error (.other
        "TypeError: Cannot read properties of undefined (reading 'waitUntil')")
  | some _ =>
      .ok ⟨task, db', c', [⟨userId, task.id, task.title, task.description⟩]⟩

/-- 201 envelope of `created(task)` in the controller. -/
structure CreatedResponse where
  status : Nat
  task : Task
  deriving DecidableEq

/-- `handleCreateTask` wired as the router and `fetch` actually call it:
no `ExecutionContext` is forwarded, so the controller's `ctx` parameter
is `undefined` (`none`). -/
def routerCreatePath (db : Db) (c : KvCache) (userId newId : Nat)
    (input : CreateTaskInput) (now : String) :
    Sum CreatedResponse HttpErrorResponse :=
  withErrorHandling
    ((createTask none db c userId newId input now).map
      (fun r => ⟨201, r.task⟩))

/-- The same path with the `ExecutionContext` actually forwarded — what
the controller and service were written for. -/
def createPathWithCtx (db : Db) (c : KvCache) (userId newId : Nat)
    (input : CreateTaskInput) (now : String) :
    Sum CreatedResponse HttpErrorResponse :=
  withErrorHandling
    ((createTask (some ()) db c userId newId input now).map
      (fun r => ⟨201, r.task⟩))

/-! # Theorems -/

/-! ## C4 — WAF responses and logging -/

/-- C4 — counterexample: the query string `?path=..%2fsecret` matches the
path-traversal class and the filter returns the generic 403 body, but it
emits no warning at all, so the logged-warning half of the claim fails
(the claim requires a warning with the matched category and the source
address for every match). -/
theorem waf_traversal_counterexample :
    traversalMatch (lowerChars ("/api/files" ++ "?path=..%2fsecret")) = true ∧
    sqlInjectionMatch (lowerChars ("/api/files" ++ "?path=..%2fsecret")) = false ∧
    xssMatch (lowerChars ("/api/files" ++ "?path=..%2fsecret")) = false ∧
    detectMaliciousInput "/api/files" "?path=..%2fsecret" "198.51.100.7" =
      WafOutcome.blocked 403 forbiddenBody [] :=
  ⟨rfl, rfl, rfl, rfl⟩

/-- C4 (amended): every input matching one of the three pattern classes
is immediately answered with the same generic 403 `Forbidden` envelope;
but only the SQL-injection branch logs a warning carrying both the
category and the source address — the XSS branch logs the category
without the address, and the traversal branch logs nothing. -/
theorem waf_uniform_forbidden (pathname search ip : String) :
    (sqlInjectionMatch (lowerChars (pathname ++ search)) = true →
      detectMaliciousInput pathname search ip =
        .blocked 403 forbiddenBody [⟨"sql_injection", pathname, some ip⟩]) ∧
    (sqlInjectionMatch (lowerChars (pathname ++ search)) = false →
      xssMatch (lowerChars (pathname ++ search)) = true →
      detectMaliciousInput pathname search ip =
        .blocked 403 forbiddenBody [⟨"xss", pathname, none⟩]) ∧
    (sqlInjectionMatch (lowerChars (pathname ++ search)) = false →
      xssMatch (lowerChars (pathname ++ search)) = false →
      traversalMatch (lowerChars (pathname ++ search)) = true →
      detectMaliciousInput pathname search ip =
        .blocked 403 forbiddenBody []) ∧
    (sqlInjectionMatch (lowerChars (pathname ++ search)) = false →
      xssMatch (lowerChars (pathname ++ search)) = false →
      traversalMatch (lowerChars (pathname ++ search)) = false →
      detectMaliciousInput pathname search ip = .passed) := by
  refine ⟨?_, ?_, ?_, ?_⟩ <;>
    (intros; simp only [detectMaliciousInput]; simp [*])

/-- C4 — witness: a concrete SQL-injection query is blocked with the
generic body and the category-plus-address warning. -/
theorem waf_uniform_forbidden_witness :
    detectMaliciousInput "/x" "?q=union select" "203.0.113.9" =
      .blocked 403 forbiddenBody [⟨"sql_injection", "/x", some "203.0.113.9"⟩] :=
  (waf_uniform_forbidden "/x" "?q=union select" "203.0.113.9").1 rfl

/-! ## C5 — rate limiter window -/

set_option maxRecDepth 8000 in
/-- C5: from an absent counter, each of the first 60 requests passes and
rewrites the counter to the incremented value with the TTL reset to the
full 60-second window; the 61st request is rejected with 429 and a
positive `Retry-After` of 60 seconds. -/
theorem rate_limit_first_sixty_then_reject :
    (∀ k : Nat, k < 60 →
      (checkRateLimit (rateStateAfter k)).response = none ∧
      (checkRateLimit (rateStateAfter k)).write =
        some (toString ((k : Int) + 1), RATE_LIMIT_WINDOW)) ∧
    (checkRateLimit (rateStateAfter 60)).response =
      some (tooManyRequestsResp RATE_LIMIT_WINDOW) ∧
    (tooManyRequestsResp RATE_LIMIT_WINDOW).status = 429 ∧
    (tooManyRequestsResp RATE_LIMIT_WINDOW).retryAfter = some 60 ∧
    0 < RATE_LIMIT_WINDOW := by
  refine ⟨?_, by decide, rfl, rfl, by decide⟩
  decide

/-- C5 — witness: the 60th request (counter at 59) is still admitted and
rewrites the counter to 60 with a fresh TTL. -/
theorem rate_limit_witness :
    (checkRateLimit (rateStateAfter 59)).response = none ∧
    (checkRateLimit (rateStateAfter 59)).write =
      some (toString ((59 : Int) + 1), RATE_LIMIT_WINDOW) :=
  rate_limit_first_sixty_then_reject.1 59 (by decide)

/-! ## C10 — pagination normalization -/

/-- C10: `parsePositiveInt` totally normalizes the `page` and `limit`
query values: missing, non-numeric, zero or negative input falls back to
the defaults (1 and 20), a limit above 100 clamps to 100, and the
effective values always satisfy `page ≥ 1` and `1 ≤ limit ≤ 100`. -/
theorem pagination_normalized (v : Option String) :
    1 ≤ parsePositiveInt v 1 none ∧
    (1 ≤ parsePositiveInt v 20 (some 100) ∧
      parsePositiveInt v 20 (some 100) ≤ 100) ∧
    (v = none → parsePositiveInt v 1 none = 1 ∧
      parsePositiveInt v 20 (some 100) = 20) ∧
    (∀ s, v = some s → jsParseInt s = none →
      parsePositiveInt v 1 none = 1 ∧ parsePositiveInt v 20 (some 100) = 20) ∧
    (∀ s n, v = some s → jsParseInt s = some n → n < 1 →
      parsePositiveInt v 1 none = 1 ∧ parsePositiveInt v 20 (some 100) = 20) ∧
    (∀ s n, v = some s → jsParseInt s = some n → 100 < n →
      parsePositiveInt v 20 (some 100) = 100) := by
  rcases v with _ | s
  · exact ⟨by decide, ⟨by decide, by decide⟩, fun _ => ⟨rfl, rfl⟩,
      fun s h => Option.noConfusion h, fun s n h => Option.noConfusion h,
      fun s n h => Option.noConfusion h⟩
  by_cases he : s = ""
  · subst he
    refine ⟨by decide, ⟨by decide, by decide⟩, by simp, ?_, ?_, ?_⟩
    · intro s h _
      injection h with h
      subst h
      exact ⟨rfl, rfl⟩
    · intro s n h hjp _
      injection h with h
      subst h
      exact Option.noConfusion hjp
    · intro s n h hjp _
      injection h with h
      subst h
      exact Option.noConfusion hjp
  rcases hjp : jsParseInt s with _ | n
  · refine ⟨?_, ⟨?_, ?_⟩, by simp, ?_, ?_, ?_⟩
    · simp [parsePositiveInt, he, hjp]
    · simp [parsePositiveInt, he, hjp]
    · simp [parsePositiveInt, he, hjp]
    · intro s' h _
      injection h with h
      subst h
      constructor <;> simp [parsePositiveInt, he, hjp]
    · intro s' n h hjp' _
      injection h with h
      subst h
      rw [hjp] at hjp'
      exact Option.noConfusion hjp'
    · intro s' n h hjp' _
      injection h with h
      subst h
      rw [hjp] at hjp'
      exact Option.noConfusion hjp'
  by_cases hn : n < 1
  · refine ⟨?_, ⟨?_, ?_⟩, by simp, ?_, ?_, ?_⟩
    · simp [parsePositiveInt, he, hjp, hn]
    · simp [parsePositiveInt, he, hjp, hn]
    · simp [parsePositiveInt, he, hjp, hn]
    · intro s' h hjp'
      injection h with h
      subst h
      rw [hjp] at hjp'
      exact Option.noConfusion hjp'
    · intro s' n' h hjp' _
      injection h with h
      subst h
      rw [hjp] at hjp'
      constructor <;> simp [parsePositiveInt, he, hjp, hn]
    · intro s' n' h hjp' h100
      injection h with h
      subst h
      rw [hjp] at hjp'
      injection hjp' with hjp'
      omega
  · refine ⟨?_, ⟨?_, ?_⟩, by simp, ?_, ?_, ?_⟩
    · simp [parsePositiveInt, he, hjp, hn]
      omega
    · simp [parsePositiveInt, he, hjp, hn]
      split <;> omega
    · simp [parsePositiveInt, he, hjp, hn]
      split <;> omega
    · intro s' h hjp'
      injection h with h
      subst h
      rw [hjp] at hjp'
      exact Option.noConfusion hjp'
    · intro s' n' h hjp' hn'
      injection h with h
      subst h
      rw [hjp] at hjp'
      injection hjp' with hjp'
      omega
    · intro s' n' h hjp' h100
      injection h with h
      subst h
      rw [hjp] at hjp'
      injection hjp' with hjp'
      subst hjp'
      have h100n : (100 : Int) < n := h100
      simp [parsePositiveInt, he, hjp, hn, h100n]

/-- C10 — witness: `limit=250` clamps to 100, and `page=0` falls back to
the default page 1. -/
theorem pagination_normalized_witness :
    parsePositiveInt (some "250") 20 (some 100) = 100 :=
  (pagination_normalized (some "250")).2.2.2.2.2 "250" 250 rfl rfl (by decide)

/-! ## C6 — authentication middleware -/

/-- C6 — counterexample: a request without an `Authorization` header is a
non-expired authentication failure whose 401 message is
`"Authorization header is required"`, which says neither "invalid" nor
"expired" — against the claim that every non-expiry failure message says
"invalid". -/
theorem auth_failure_message_counterexample :
    requireAuth none (fun _ => .errorMsg "") =
      .error (unauthorizedResp "Authorization header is required") ∧
    hasSub "invalid".data
      (lowerChars "Authorization header is required") = false ∧
    hasSub "expired".data
      (lowerChars "Authorization header is required") = false :=
  ⟨rfl, by decide, by decide⟩

/-- C6 (amended): authentication succeeds exactly when the header is
present with the bearer scheme, the stripped token is non-empty, the
token verifies, and the payload carries a numeric `userId` and string
`email`/`name`; every failure is a 401 `UNAUTHORIZED` response whose
message is one of the structural messages, `"Token payload is
malformed"`, or — for verification throws — `"Token has expired"` when
the underlying error mentions "expired" and `"Invalid token"`
otherwise. -/
theorem auth_characterization (h : Option String)
    (verify : String → VerifyOutcome) :
    (∀ f, requireAuth h verify = .error f →
      f.status = 401 ∧ f.code = "UNAUTHORIZED" ∧
      (f.message = "Authorization header is required" ∨
       f.message = "Authorization header must use Bearer scheme" ∨
       f.message = "Bearer token is empty" ∨
       f.message = "Token payload is malformed" ∨
       f.message = "Token has expired" ∨
       f.message = "Invalid token")) ∧
    (∀ ctx, requireAuth h verify = .ok ctx →
      ∃ s p, h = some s ∧ strStartsWith s "Bearer " = true ∧
        bearerToken s ≠ "" ∧ verify (bearerToken s) = .valid p ∧
        p.userId = some (.num ctx.userId) ∧
        p.email = some (.str ctx.email) ∧ p.name = some (.str ctx.name)) ∧
    (∀ s m, h = some s → strStartsWith s "Bearer " = true →
      bearerToken s ≠ "" → verify (bearerToken s) = .errorMsg m →
      requireAuth h verify = .error (unauthorizedResp
        (if hasSub "expired".data m.data then "Token has expired"
         else "Invalid token"))) ∧
    (∀ s p uid em nm, h = some s → strStartsWith s "Bearer " = true →
      bearerToken s ≠ "" → verify (bearerToken s) = .valid p →
      p.userId = some (.num uid) → p.email = some (.str em) →
      p.name = some (.str nm) →
      requireAuth h verify = .ok ⟨uid, em, nm⟩) := by
  refine ⟨?_, ?_, ?_, ?_⟩
  · intro f hf
    rcases h with _ | s
    · simp only [requireAuth, Except.error.injEq] at hf
      subst hf
      exact ⟨rfl, rfl, Or.inl rfl⟩
    · simp only [requireAuth] at hf
      cases hb : strStartsWith s "Bearer " <;> rw [hb] at hf
      · simp only [Bool.not_false, if_true, Except.error.injEq] at hf
        subst hf
        exact ⟨rfl, rfl, Or.inr (Or.inl rfl)⟩
      · by_cases ht : bearerToken s = ""
        · simp only [Bool.not_true, Bool.false_eq_true, if_false, if_pos ht,
            Except.error.injEq] at hf
          subst hf
          exact ⟨rfl, rfl, Or.inr (Or.inr (Or.inl rfl))⟩
        · simp only [Bool.not_true, Bool.false_eq_true, if_false,
            if_neg ht] at hf
          rcases hv : verify (bearerToken s) with p | m <;> rw [hv] at hf
          · rcases p with ⟨pu, pe, pn⟩
            rcases pu with _ | n1 | s1 | _ <;> rcases pe with _ | n2 | s2 | _ <;>
              rcases pn with _ | n3 | s3 | _ <;>
              first
              | (have hf' : (Except.error
                    (unauthorizedResp "Token payload is malformed") :
                    Except HttpErrorResponse AuthContext) = .error f := hf
                 injection hf' with hf'
                 subst hf'
                 exact ⟨rfl, rfl, Or.inr (Or.inr (Or.inr (Or.inl rfl)))⟩)
              | exact absurd hf (by simp)
          · have hf' : (Except.error (unauthorizedResp
                (if hasSub "expired".data m.data then "Token has expired"
                 else "Invalid token")) :
                Except HttpErrorResponse AuthContext) = .error f := hf
            injection hf' with hf'
            subst hf'
            refine ⟨rfl, rfl, ?_⟩
            by_cases hex : hasSub "expired".data m.data = true
            · exact Or.inr (Or.inr (Or.inr (Or.inr
                (Or.inl (by simp [hex, unauthorizedResp])))))
            · exact Or.inr (Or.inr (Or.inr (Or.inr
                (Or.inr (by simp [hex, unauthorizedResp])))))
  · intro ctx hctx
    rcases h with _ | s
    · exact Except.noConfusion hctx
    · simp only [requireAuth] at hctx
      cases hb : strStartsWith s "Bearer " <;> rw [hb] at hctx
      · exact absurd hctx (by simp)
      · by_cases ht : bearerToken s = ""
        · simp only [Bool.not_true, Bool.false_eq_true, if_false,
            if_pos ht] at hctx
          exact Except.noConfusion hctx
        · simp only [Bool.not_true, Bool.false_eq_true, if_false,
            if_neg ht] at hctx
          rcases hv : verify (bearerToken s) with p | m <;> rw [hv] at hctx
          · refine ⟨s, p, rfl, hb, ht, hv, ?_⟩
            rcases p with ⟨pu, pe, pn⟩
            rcases pu with _ | n1 | s1 | _ <;> rcases pe with _ | n2 | s2 | _ <;>
              rcases pn with _ | n3 | s3 | _ <;>
              first
              | (have hctx' : (Except.ok (⟨n1, s2, s3⟩ : AuthContext) :
                    Except HttpErrorResponse AuthContext) = .ok ctx := hctx
                 injection hctx' with hctx'
                 rw [← hctx']
                 exact ⟨rfl, rfl, rfl⟩)
              | exact absurd hctx (by simp)
          · exact Except.noConfusion hctx
  · intro s m hs hb ht hv
    subst hs
    simp [requireAuth, hb, ht, hv]
  · intro s p uid em nm hs hb ht hv hu he hn
    subst hs
    simp [requireAuth, hb, ht, hv, hu, he, hn]

/-- C6 — witness: a concrete verification failure whose message mentions
"expired" surfaces as `"Token has expired"`. -/
theorem auth_characterization_witness :
    requireAuth (some "Bearer abc")
      (fun _ => .errorMsg "JWT expired at 12:00") =
      .error (unauthorizedResp "Token has expired") := by
  have h := (auth_characterization (some "Bearer abc")
    (fun _ => .errorMsg "JWT expired at 12:00")).2.2.1
    "Bearer abc" "JWT expired at 12:00" rfl (by decide) (by decide) rfl
  simpa using h

/-! ## C7 — uniform login failure -/

/-- C7: a login for an unknown email runs password verification against
the precomputed `DUMMY_HASH`, a login with a wrong password for an
existing account runs it against that account's stored hash, and both
produce the very same thrown `AppError` — hence, through the error
boundary, byte-identical 401 bodies with the one uniform message. -/
theorem login_uniform_failure (findByEmail : String → Option User)
    (verifyPassword : String → String → Bool) (issueToken : User → String)
    (input : LoginInput) :
    (findByEmail input.email = none →
      (loginUser findByEmail verifyPassword issueToken input).hashChecked =
        DUMMY_HASH ∧
      (loginUser findByEmail verifyPassword issueToken input).outcome =
        .error (AppError.unauthorized "Invalid email or password")) ∧
    (∀ u, findByEmail input.email = some u →
      verifyPassword input.password u.password = false →
      (loginUser findByEmail verifyPassword issueToken input).hashChecked =
        u.password ∧
      (loginUser findByEmail verifyPassword issueToken input).outcome =
        .error (AppError.unauthorized "Invalid email or password")) ∧
    mapAppError (AppError.unauthorized "Invalid email or password") =
      unauthorizedResp "Invalid email or password" := by
  refine ⟨?_, ?_, rfl⟩
  · intro hnone
    simp [loginUser, hnone]
  · intro u hu hbad
    simp [loginUser, hu, hbad]

/-- C7 — witness: with an empty user table, a concrete login fails with
the uniform error after checking the dummy hash. -/
theorem login_uniform_failure_witness :
    (loginUser (fun _ => none) (fun _ _ => false) (fun _ => "t")
      ⟨"a@x.com", "pw"⟩).hashChecked = DUMMY_HASH ∧
    (loginUser (fun _ => none) (fun _ _ => false) (fun _ => "t")
      ⟨"a@x.com", "pw"⟩).outcome =
      .error (AppError.unauthorized "Invalid email or password") :=
  (login_uniform_failure (fun _ => none) (fun _ _ => false) (fun _ => "t")
    ⟨"a@x.com", "pw"⟩).1 rfl

/-! ## C8 — `completed_at` transitions -/

/-- C8: a repository update moving `status` into `done` from a non-done
status sets `completed_at` to the current timestamp; moving out of
`done` clears it; a done→done update and any update not touching
`status` leave it unchanged. -/
theorem completed_at_transitions (existing : Task) (input : UpdateTaskInput)
    (now : String) :
    (input.status = some .done → existing.status ≠ .done →
      (applyUpdate existing input now).completed_at = some now) ∧
    (∀ s, input.status = some s → s ≠ .done → existing.status = .done →
      (applyUpdate existing input now).completed_at = none) ∧
    (input.status = some .done → existing.status = .done →
      (applyUpdate existing input now).completed_at =
        existing.completed_at) ∧
    (input.status = none →
      (applyUpdate existing input now).completed_at =
        existing.completed_at) := by
  refine ⟨?_, ?_, ?_, ?_⟩
  · intro hs hne
    simp [applyUpdate, hs, hne]
  · intro s hs hnd hdone
    simp [applyUpdate, hs, hnd, hdone]
  · intro hs hdone
    simp [applyUpdate, hs, hdone]
  · intro hs
    simp [applyUpdate, hs]

/-- C8 — witness: patching a `todo` task to `done` stamps
`completed_at`. -/
theorem completed_at_transitions_witness :
    (applyUpdate
      ⟨1, 1, "T", none, .todo, .medium, none, none, none, none, "c", "u"⟩
      ⟨none, none, some .done, none, none, none⟩
      "2026-02-10 12:00:00").completed_at = some "2026-02-10 12:00:00" :=
  (completed_at_transitions
    ⟨1, 1, "T", none, .todo, .medium, none, none, none, none, "c", "u"⟩
    ⟨none, none, some .done, none, none, none⟩
    "2026-02-10 12:00:00").1 rfl (by decide)

/-! ## C9 — error boundary mapping -/

/-- C9: the boundary always yields exactly one outcome: a handler
response passes through unchanged; every factory-built `AppError` maps
1:1 to the envelope of its status and code with its message; legacy
`{status, message}` throws map through the same table (unlisted statuses
fall to the 500 arm, as for an `AppError`); and any other thrown value
becomes the generic 500 `INTERNAL_ERROR` / `"Internal server error"`
response, independent of the thrown detail. -/
theorem error_boundary_mapping :
    (∀ (R : Type) (r : R), withErrorHandling (.ok r) = .inl r) ∧
    (∀ m, withErrorHandling (R := Unit) (.error (.app (AppError.badRequest m))) =
      .inr ⟨400, "BAD_REQUEST", m, none⟩) ∧
    (∀ m, withErrorHandling (R := Unit) (.error (.app (AppError.unauthorized m))) =
      .inr ⟨401, "UNAUTHORIZED", m, none⟩) ∧
    (∀ m, withErrorHandling (R := Unit) (.error (.app (AppError.forbidden m))) =
      .inr ⟨403, "FORBIDDEN", m, none⟩) ∧
    (∀ m, withErrorHandling (R := Unit) (.error (.app (AppError.notFound m))) =
      .inr ⟨404, "NOT_FOUND", m, none⟩) ∧
    (∀ m, withErrorHandling (R := Unit) (.error (.app (AppError.conflict m))) =
      .inr ⟨409, "CONFLICT", m, none⟩) ∧
    (∀ m, withErrorHandling (R := Unit) (.error (.app (AppError.internal m))) =
      .inr ⟨500, "INTERNAL_ERROR", m, none⟩) ∧
    (∀ s m, withErrorHandling (R := Unit) (.error (.legacy s m)) =
      .inr (mapLegacy s m) ∧
      mapLegacy s m = mapAppError ⟨s, "BAD_REQUEST", m⟩) ∧
    (∀ d, withErrorHandling (R := Unit) (.error (.other d)) =
      .inr ⟨500, "INTERNAL_ERROR", "Internal server error", none⟩) := by
  refine ⟨fun R r => rfl, fun m => rfl, fun m => rfl, fun m => rfl,
    fun m => rfl, fun m => rfl, fun m => rfl, ?_, fun d => rfl⟩
  intro s m
  refine ⟨rfl, ?_⟩
  unfold mapLegacy mapAppError
  rcases s with _ | _ | _ | _ | s <;> rfl

/-! ## C2 — list-cache gating in `getAllTasks` -/

/-- C2 — counterexample: a query with a non-default `limit` (50) and no
other filter still goes through the list cache — `cache.get` is called
and, on a miss, the result is written under the list key — against the
claim that a non-default page size bypasses the cache. -/
theorem list_cache_limit_counterexample :
    (getAllTasks (fun _ => ⟨[], 0, 1, 50⟩) ⟨fun _ => none, fun _ _ => none⟩ 1
      ⟨none, none, none, none, none, some 50⟩).readListKey = true ∧
    (getAllTasks (fun _ => ⟨[], 0, 1, 50⟩) ⟨fun _ => none, fun _ _ => none⟩ 1
      ⟨none, none, none, none, none, some 50⟩).wroteListKey = true ∧
    (⟨none, none, none, none, none, some 50⟩ : TaskQueryParams).limit ≠
      some 20 :=
  ⟨rfl, rfl, by decide⟩

/-- C2 (amended): the list cache is bypassed — neither read nor written,
with the store of record queried directly — exactly when the query
carries a status, priority, search or due_before filter or a page other
than 1; `limit` plays no part in the decision.  For the unfiltered
first-page query the cache is read, a hit is served without touching the
store and a miss populates the key. -/
theorem list_cache_gating (dbFind : TaskQueryParams → FindAllResult)
    (c : KvCache) (userId : Nat) (p : TaskQueryParams) :
    (p.status ≠ none ∨ p.priority ≠ none ∨ p.search ≠ none ∨
      p.due_before ≠ none ∨ p.page.getD 1 ≠ 1 →
      getAllTasks dbFind c userId p = ⟨dbFind p, c, false, false⟩) ∧
    (p.status = none → p.priority = none → p.search = none →
      p.due_before = none → p.page.getD 1 = 1 →
      (getAllTasks dbFind c userId p).readListKey = true ∧
      (∀ v, c.listSnap userId = some v →
        getAllTasks dbFind c userId p = ⟨v, c, true, false⟩) ∧
      (c.listSnap userId = none →
        getAllTasks dbFind c userId p =
          ⟨dbFind p, putList c userId (dbFind p), true, true⟩)) := by
  constructor
  · intro h
    have hcond : (p.status.isNone && p.priority.isNone && p.search.isNone &&
        p.due_before.isNone && (p.page.getD 1 == 1)) = false := by
      rcases h with h | h | h | h | h <;>
        simp [Option.isNone_iff_eq_none, h]
    simp [getAllTasks, hcond]
  · intro hs hp hse hd hpg
    have hcond : (p.status.isNone && p.priority.isNone && p.search.isNone &&
        p.due_before.isNone && (p.page.getD 1 == 1)) = true := by
      simp [Option.isNone_iff_eq_none, hs, hp, hse, hd, hpg]
    refine ⟨?_, ?_, ?_⟩
    · rcases hsnap : c.listSnap userId with _ | v <;>
        simp [getAllTasks, hcond, hsnap]
    · intro v hv
      simp [getAllTasks, hcond, hv]
    · intro hv
      simp [getAllTasks, hcond, hv]

/-- C2 — witness: the unfiltered first-page query with the default limit
reads the (empty) cache and populates it from the store. -/
theorem list_cache_gating_witness :
    getAllTasks (fun _ => ⟨[], 0, 1, 20⟩) ⟨fun _ => none, fun _ _ => none⟩ 1
      ⟨none, none, none, none, some 1, some 20⟩ =
      ⟨⟨[], 0, 1, 20⟩,
        putList ⟨fun _ => none, fun _ _ => none⟩ 1 ⟨[], 0, 1, 20⟩,
        true, true⟩ :=
  ((list_cache_gating (fun _ => ⟨[], 0, 1, 20⟩)
    ⟨fun _ => none, fun _ _ => none⟩ 1
    ⟨none, none, none, none, some 1, some 20⟩).2
    rfl rfl rfl rfl rfl).2.2 rfl

/-! ## C3 — synchronous cache invalidation on writes -/

/-- C3: every successful write clears the user's list key before
returning — update and delete clear the `(userId, taskId)` item key as
well — and therefore a `getTaskById` issued right after a completed
update misses the cache and returns exactly the post-update row from the
store of record, never a pre-update snapshot. -/
theorem write_invalidation (db : Db) (c : KvCache) (id userId newId : Nat)
    (input : UpdateTaskInput) (cinput : CreateTaskInput) (now : String) :
    (∀ t db' c', updateTask db c id userId input now = .ok (t, db', c') →
      c'.listSnap userId = none ∧ c'.itemSnap userId id = none ∧
      db' id userId = some t ∧
      getTaskById db' c' id userId = .ok (t, putItem c' userId id t)) ∧
    (∀ db' c', deleteTask db c id userId = .ok (db', c') →
      c'.listSnap userId = none ∧ c'.itemSnap userId id = none) ∧
    (∀ r, createTask (some ()) db c userId newId cinput now = .ok r →
      r.cache.listSnap userId = none) := by
  refine ⟨?_, ?_, ?_⟩
  · intro t db' c' h
    rcases hdb : db id userId with _ | existing
    · rw [updateTask, hdb] at h
      exact Except.noConfusion h
    · rw [updateTask, hdb] at h
      injection h with h
      obtain ⟨h1, h2, h3⟩ : applyUpdate existing input now = t ∧
          dbPut db id userId (applyUpdate existing input now) = db' ∧
          invalidateUserCache c userId (some id) = c' := by
        simpa [Prod.ext_iff] using h
      subst h1
      subst h2
      subst h3
      refine ⟨?_, ?_, ?_, ?_⟩
      · simp [invalidateUserCache, delItem, delList]
      · simp [invalidateUserCache, delItem, delList]
      · simp [dbPut]
      · simp [getTaskById, invalidateUserCache, delItem, delList, dbPut]
  · intro db' c' h
    rcases hdb : db id userId with _ | existing
    · rw [deleteTask, hdb] at h
      exact Except.noConfusion h
    · rw [deleteTask, hdb] at h
      injection h with h
      obtain ⟨h1, h2⟩ : dbDelete db id userId = db' ∧
          invalidateUserCache c userId (some id) = c' := by
        simpa [Prod.ext_iff] using h
      subst h1
      subst h2
      constructor <;> simp [invalidateUserCache, delItem, delList]
  · intro r h
    rw [createTask] at h
    injection h with h
    subst h
    simp [invalidateUserCache, delList]

/-- C3 — witness: updating a concrete one-task store clears both cache
keys and a follow-up read returns the freshly updated row. -/
theorem write_invalidation_witness :
    (invalidateUserCache ⟨fun _ => none, fun _ _ => none⟩ 1
      (some 5)).listSnap 1 = none ∧
    (invalidateUserCache ⟨fun _ => none, fun _ _ => none⟩ 1
      (some 5)).itemSnap 1 5 = none ∧
    dbPut (fun i u => if i = 5 ∧ u = 1 then
        some ⟨5, 1, "T", none, .todo, .medium, none, none, none, none, "c", "u"⟩
      else none) 5 1
      (applyUpdate
        ⟨5, 1, "T", none, .todo, .medium, none, none, none, none, "c", "u"⟩
        ⟨none, none, some .done, none, none, none⟩ "now") 5 1 =
      some (applyUpdate
        ⟨5, 1, "T", none, .todo, .medium, none, none, none, none, "c", "u"⟩
        ⟨none, none, some .done, none, none, none⟩ "now") ∧
    getTaskById
      (dbPut (fun i u => if i = 5 ∧ u = 1 then
          some ⟨5, 1, "T", none, .todo, .medium, none, none, none, none, "c", "u"⟩
        else none) 5 1
        (applyUpdate
          ⟨5, 1, "T", none, .todo, .medium, none, none, none, none, "c", "u"⟩
          ⟨none, none, some .done, none, none, none⟩ "now"))
      (invalidateUserCache ⟨fun _ => none, fun _ _ => none⟩ 1 (some 5)) 5 1 =
      .ok (applyUpdate
          ⟨5, 1, "T", none, .todo, .medium, none, none, none, none, "c", "u"⟩
          ⟨none, none, some .done, none, none, none⟩ "now",
        putItem (invalidateUserCache ⟨fun _ => none, fun _ _ => none⟩ 1
          (some 5)) 1 5
          (applyUpdate
            ⟨5, 1, "T", none, .todo, .medium, none, none, none, none, "c", "u"⟩
            ⟨none, none, some .done, none, none, none⟩ "now")) :=
  (write_invalidation
    (fun i u => if i = 5 ∧ u = 1 then
        some ⟨5, 1, "T", none, .todo, .medium, none, none, none, none, "c", "u"⟩
      else none)
    ⟨fun _ => none, fun _ _ => none⟩ 5 1 7
    ⟨none, none, some .done, none, none, none⟩
    ⟨"T", none, none, none, none, none⟩ "now").1
    (applyUpdate
      ⟨5, 1, "T", none, .todo, .medium, none, none, none, none, "c", "u"⟩
      ⟨none, none, some .done, none, none, none⟩ "now")
    (dbPut (fun i u => if i = 5 ∧ u = 1 then
        some ⟨5, 1, "T", none, .todo, .medium, none, none, none, none, "c", "u"⟩
      else none) 5 1
      (applyUpdate
        ⟨5, 1, "T", none, .todo, .medium, none, none, none, none, "c", "u"⟩
        ⟨none, none, some .done, none, none, none⟩ "now"))
    (invalidateUserCache ⟨fun _ => none, fun _ _ => none⟩ 1 (some 5)) rfl

/-! ## C1 — the POST /tasks create path -/

/-- C1: the assembled create path (authenticated, valid body) does not
return 201 — neither the entry point's `fetch` nor the router forwards
the `ExecutionContext`, so `ctx.waitUntil` throws a `TypeError` that the
error boundary converts into a generic 500, and the enrichment promise
is never handed to the keep-alive mechanism.  With the context actually
forwarded, the same service call returns 201 with the created task, as
the controller, tests and README specify. -/
theorem create_path_miswired_returns_500 :
    routerCreatePath (fun _ _ => none) ⟨fun _ => none, fun _ _ => none⟩ 1 1
      ⟨"T", none, none, none, none, none⟩ "2026-02-10" =
      .inr (internalErrorResp "Internal server error") ∧
    createTask none (fun _ _ => none) ⟨fun _ => none, fun _ _ => none⟩ 1 1
      ⟨"T", none, none, none, none, none⟩ "2026-02-10" =
      .error (.other
        "TypeError: Cannot read properties of undefined (reading 'waitUntil')") ∧
    createPathWithCtx (fun _ _ => none) ⟨fun _ => none, fun _ _ => none⟩ 1 1
      ⟨"T", none, none, none, none, none⟩ "2026-02-10" =
      .inl ⟨201, createdRow 1 1 ⟨"T", none, none, none, none, none⟩
        "2026-02-10"⟩ :=
  ⟨rfl, rfl, rfl⟩

end TaskManager
